import Mathlib

/-!
# Verification of the agent-memory-server extraction and LLM-client layer

Shallow embedding of `agent_memory_server/llms.py` and
`agent_memory_server/extraction.py`.  Python coroutines performing network
I/O are modelled as pure functions over explicit oracles: an LLM call is
represented by the classification of its outcome (the call raised, or it
returned content whose JSON parse succeeded/failed in a particular way),
and storage-adapter calls are recorded in an explicit effect structure.
Machine-level details that the claims do not touch (the exact exception
objects, the md5 hash, the JSON surface syntax) are abstracted, but every
branch of the embedded control flow follows the source line by line.
-/

namespace AgentMemory

/-- Python truthiness of an optional string: `None` and `""` are falsy. -/
def pyTruthy : Option String → Bool
  | none => false
  | some s => s ≠ ""

/-- Python `a or b` on optional strings: the first operand when truthy,
otherwise the second operand (even if the second is also falsy). -/
def pyOr (a b : Option String) : Option String :=
  if pyTruthy a then a else b

/-! ## Model registry (`llms.py` lines 25-197) -/

/-- `ModelProvider` enum from `llms.py`. -/
inductive ModelProvider where
  | openai
  | anthropic
  deriving DecidableEq, Repr

/-- `ModelConfig` pydantic model from `llms.py`:
provider, name, max token limit, embedding dimensionality. -/
structure ModelConfig where
  provider : ModelProvider
  name : String
  max_tokens : Nat
  embedding_dimensions : Nat := 1536
  deriving DecidableEq, Repr

/-- The static `MODEL_CONFIGS` table from `llms.py` lines 42-187,
as an association list in source order. -/
def MODEL_CONFIGS : List (String × ModelConfig) :=
  [ ("gpt-3.5-turbo",
      { provider := .openai, name := "gpt-3.5-turbo", max_tokens := 4096,
        embedding_dimensions := 1536 }),
    ("gpt-3.5-turbo-16k",
      { provider := .openai, name := "gpt-3.5-turbo-16k", max_tokens := 16384,
        embedding_dimensions := 1536 }),
    ("gpt-4",
      { provider := .openai, name := "gpt-4", max_tokens := 8192,
        embedding_dimensions := 1536 }),
    ("gpt-4-32k",
      { provider := .openai, name := "gpt-4-32k", max_tokens := 32768,
        embedding_dimensions := 1536 }),
    ("gpt-4o",
      { provider := .openai, name := "gpt-4o", max_tokens := 128000,
        embedding_dimensions := 1536 }),
    ("gpt-4o-mini",
      { provider := .openai, name := "gpt-4o-mini", max_tokens := 128000,
        embedding_dimensions := 1536 }),
    ("o1",
      { provider := .openai, name := "o1", max_tokens := 200000,
        embedding_dimensions := 1536 }),
    ("o1-mini",
      { provider := .openai, name := "o1-mini", max_tokens := 128000,
        embedding_dimensions := 1536 }),
    ("o3-mini",
      { provider := .openai, name := "o3-mini", max_tokens := 200000,
        embedding_dimensions := 1536 }),
    ("text-embedding-ada-002",
      { provider := .openai, name := "text-embedding-ada-002", max_tokens := 8191,
        embedding_dimensions := 1536 }),
    ("text-embedding-3-small",
      { provider := .openai, name := "text-embedding-3-small", max_tokens := 8191,
        embedding_dimensions := 1536 }),
    ("text-embedding-3-large",
      { provider := .openai, name := "text-embedding-3-large", max_tokens := 8191,
        embedding_dimensions := 3072 }),
    ("claude-3-opus-20240229",
      { provider := .anthropic, name := "claude-3-opus-20240229",
        max_tokens := 200000, embedding_dimensions := 1536 }),
    ("claude-3-sonnet-20240229",
      { provider := .anthropic, name := "claude-3-sonnet-20240229",
        max_tokens := 200000, embedding_dimensions := 1536 }),
    ("claude-3-haiku-20240307",
      { provider := .anthropic, name := "claude-3-haiku-20240307",
        max_tokens := 200000, embedding_dimensions := 1536 }),
    ("claude-3-5-sonnet-20240620",
      { provider := .anthropic, name := "claude-3-5-sonnet-20240620",
        max_tokens := 200000, embedding_dimensions := 1536 }),
    ("claude-3-7-sonnet-20250219",
      { provider := .anthropic, name := "claude-3-7-sonnet-20250219",
        max_tokens := 200000, embedding_dimensions := 1536 }),
    ("claude-3-5-sonnet-20241022",
      { provider := .anthropic, name := "claude-3-5-sonnet-20241022",
        max_tokens := 200000, embedding_dimensions := 1536 }),
    ("claude-3-5-haiku-20241022",
      { provider := .anthropic, name := "claude-3-5-haiku-20241022",
        max_tokens := 200000, embedding_dimensions := 1536 }),
    ("claude-3-7-sonnet-latest",
      { provider := .anthropic, name := "claude-3-7-sonnet-20250219",
        max_tokens := 200000, embedding_dimensions := 1536 }),
    ("claude-3-5-sonnet-latest",
      { provider := .anthropic, name := "claude-3-5-sonnet-20241022",
        max_tokens := 200000, embedding_dimensions := 1536 }),
    ("claude-3-5-haiku-latest",
      { provider := .anthropic, name := "claude-3-5-haiku-20241022",
        max_tokens := 200000, embedding_dimensions := 1536 }),
    ("claude-3-opus-latest",
      { provider := .anthropic, name := "claude-3-opus-20240229",
        max_tokens := 200000, embedding_dimensions := 1536 }) ]

/-- `get_model_config` from `llms.py` lines 190-197: dictionary membership
test, falling back to the `"gpt-4o-mini"` entry for unknown names (the
Python dictionary lookup `MODEL_CONFIGS["gpt-4o-mini"]` always succeeds;
we embed the fallback config directly, equal to that entry). -/
def get_model_config (model_name : String) : ModelConfig :=
  match MODEL_CONFIGS.lookup model_name with
  | some cfg => cfg
  | none =>
      { provider := .openai, name := "gpt-4o-mini", max_tokens := 128000,
        embedding_dimensions := 1536 }

/-! ## OpenAI client wrapper construction (`llms.py` lines 302-348)

`AsyncOpenAI(...)` construction is modelled by the record of the arguments
it receives; the claims only concern whether and with which arguments the
underlying clients are created.  We assume the `openai` package is
importable (`AsyncOpenAI is not None`), as in any functioning deployment. -/

/-- An `AsyncOpenAI` instance, identified by the constructor arguments. -/
structure AsyncOpenAIClient where
  api_key : Option String
  base_url : Option String
  deriving DecidableEq, Repr

/-- The attribute state of an `OpenAIClientWrapper` after `__init__`:
the two underlying clients (`None` when unset). -/
structure OpenAIClientWrapper where
  api_key : Option String
  base_url : Option String
  completion_client : Option AsyncOpenAIClient
  embedding_client : Option AsyncOpenAIClient
  deriving DecidableEq, Repr

/-- `OpenAIClientWrapper.__init__` (`llms.py` lines 305-348).  Arguments:
the `api_key` and `base_url` parameters and the `OPENAI_API_KEY` /
`OPENAI_API_BASE` environment variables.  Returns the constructed attribute
state, or the `ValueError` message raised when no key is configured.
The first conditional block (lines 313-325) assigns the clients; the second
block (lines 327-348) recomputes key and base and then reassigns the
clients — overwriting them with `None` when no base URL is configured. -/
def OpenAIClientWrapper.init (api_key base_url env_key env_base : Option String) :
    Except String OpenAIClientWrapper :=
  let self_api_key := pyOr api_key env_key
  let self_base_url := pyOr base_url env_base
  -- lines 313-325: first assignment of the two clients
  let firstClients : Option AsyncOpenAIClient × Option AsyncOpenAIClient :=
    if pyTruthy self_api_key then
      if pyTruthy self_base_url then
        (some ⟨self_api_key, self_base_url⟩, some ⟨self_api_key, self_base_url⟩)
      else
        (some ⟨self_api_key, none⟩, some ⟨self_api_key, none⟩)
    else
      (none, none)
  -- lines 327-348: recomputation and reassignment
  let openai_api_base := pyOr base_url env_base
  let openai_api_key := pyOr api_key env_key
  if ¬ pyTruthy openai_api_key then
    .error "OpenAI API key is required"
  else if pyTruthy openai_api_base then
    .ok { api_key := self_api_key, base_url := self_base_url,
          completion_client := some ⟨openai_api_key, openai_api_base⟩,
          embedding_client := some ⟨openai_api_key, openai_api_base⟩ }
  else
    -- lines 346-348: the else branch sets both clients to None,
    -- discarding the clients assigned in the first block
    .ok { api_key := self_api_key, base_url := self_base_url,
          completion_client := (fun _ => none) firstClients,
          embedding_client := none }

/-- The guard of `OpenAIClientWrapper.create_chat_completion`
(`llms.py` lines 359-360): with no completion client the call raises
`ValueError("OpenAI API key is not configured")` before any network I/O.
The successful path (a network call) is abstracted as `.ok ()`. -/
def OpenAIClientWrapper.create_chat_completion_guard (self : OpenAIClientWrapper) :
    Except String Unit :=
  if self.completion_client.isNone then
    .error "OpenAI API key is not configured"
  else
    .ok ()

/-- The guard of `OpenAIClientWrapper.create_embedding`
(`llms.py` lines 399-400). -/
def OpenAIClientWrapper.create_embedding_guard (self : OpenAIClientWrapper) :
    Except String Unit :=
  if self.embedding_client.isNone then
    .error "OpenAI API key is not configured"
  else
    .ok ()

/-! ## Result of a Python call that may raise

Exception identity is abstracted: the claims distinguish only "returned a
value" from "an exception propagated". -/

/-- Outcome of a Python call: a returned value, or a propagated exception. -/
inductive PyResult (α : Type) where
  | ok (val : α)
  | raised
  deriving DecidableEq, Repr

/-! ## LLM-based topic extraction (`extraction.py` lines 125-168)

The chat-completion call and the JSON parse of its content are abstracted
into the classification of each attempt's outcome:
  * `callRaises` — `create_chat_completion` itself raised (network failure,
    missing credential, ...); the exception escapes the `with attempt` body
    and tenacity sees a failed attempt;
  * `callReturns parsed` — the call returned content; `parsed = some ts`
    when `json.loads(content)["topics"]` yields the list `ts`, and
    `parsed = none` when `json.loads` raises `JSONDecodeError` or the
    `"topics"` key is missing (`KeyError`).
The oracle is the list of outcomes of successive calls. -/

/-- Classification of one attempt of the LLM topic-extraction loop. -/
inductive TopicOutcome where
  | callRaises
  | callReturns (parsed : Option (List String))
  deriving DecidableEq, Repr

/-- The body of one `with attempt:` block of `extract_topics_llm` after the
completion call returned (lines 158-166): the `try/except` catches
`JSONDecodeError`/`KeyError` and sets `topics = []`; a nonempty list is then
truncated to `_num_topics`. -/
def topicAttemptValue (numTopics : Nat) (parsed : Option (List String)) :
    List String :=
  let topics := match parsed with
    | some ts => ts
    | none => []           -- except branch: log the error, topics = []
  if topics ≠ [] then topics.take numTopics else topics

/-- The `AsyncRetrying(stop=stop_after_attempt(fuel))` loop of
`extract_topics_llm` (lines 151-166).  An attempt whose body completes
without exception ends the loop with its value; an attempt whose
completion call raises is retried while attempts remain, and after the
last failed attempt the retry wrapper raises.  Returns the result together
with the number of attempts executed. -/
def topicsRetry (numTopics : Nat) :
    Nat → List TopicOutcome → PyResult (List String) × Nat
  | 0, _ => (.raised, 0)
  | _ + 1, [] => (.raised, 0)
  | fuel + 1, o :: rest =>
    match o with
    | .callReturns parsed => (.ok (topicAttemptValue numTopics parsed), 1)
    | .callRaises =>
        match fuel, rest with
        | 0, _ => (.raised, 1)
        | _ + 1, _ =>
            let (r, k) := topicsRetry numTopics fuel rest
            (r, k + 1)

/-- `extract_topics_llm` (`extraction.py` lines 125-168), with the client
dispatch abstracted away: resolves `_num_topics` from the argument or the
`top_k_topics` setting, then runs the 3-attempt retry loop over the
outcome oracle. -/
def extract_topics_llm (topK : Nat) (numTopics : Option Nat)
    (outcomes : List TopicOutcome) : PyResult (List String) × Nat :=
  let numT := match numTopics with
    | some n => n
    | none => topK
  topicsRetry numT 3 outcomes

/-! ## Statistical (BERTopic) topic extraction (`extraction.py` lines 171-201)

The underlying topic model is abstracted as two functions: `transform`
(document → topic indices, one `model.transform` network-free but expensive
invocation) and `getTopic` (index → ordered term list; the code keeps
`info[0]` of each `(term, weight)` pair, so we model the term list
directly; BERTopic's `False` return for an unknown index is the empty
list).  The cache is the `_bertopic_cache` dictionary, an association
list keyed by `(text, resolved count)`. -/

/-- The `for i, topic_idx in enumerate(topic_indices)` loop of
`extract_topics_bertopic` (lines 191-198): break once `_num_topics` is
truthy (nonzero) and `i >= _num_topics`; skip the outlier index `-1`;
otherwise extend with the topic's terms when nonempty. -/
def bertopicLoop (getTopic : Int → List String) (numTopics : Nat) :
    Nat → List Int → List String
  | _, [] => []
  | i, idx :: rest =>
    if numTopics ≠ 0 ∧ numTopics ≤ i then []
    else
      (if idx ≠ -1 then
        (let info := getTopic idx
         if info ≠ [] then info else [])
       else []) ++ bertopicLoop getTopic numTopics (i + 1) rest

/-- `extract_topics_bertopic` (`extraction.py` lines 171-201).  Returns the
topic list, the updated cache, and the number of underlying model
invocations performed by this call (`0` on a cache hit, `1` otherwise). -/
def extract_topics_bertopic (transform : String → List Int)
    (getTopic : Int → List String) (topK : Nat)
    (text : String) (numTopics : Option Nat)
    (cache : List ((String × Nat) × List String)) :
    List String × List ((String × Nat) × List String) × Nat :=
  let numT := match numTopics with
    | some n => n
    | none => topK
  match cache.lookup (text, numT) with
  | some cached => (cached, cache, 0)
  | none =>
      let topics := bertopicLoop getTopic numT 0 (transform text)
      (topics, ((text, numT), topics) :: cache, 1)

/-! ## Entity extraction (`extraction.py` lines 78-122)

The NER pipeline's output items are dicts of which only `"word"` is read;
the pipeline call is abstracted as a `PyResult` (it may raise — model
loading or inference failure — which the function catches).  The cache key
`hashlib.md5(text.encode()).hexdigest()` is modelled by the text itself
(md5 treated as injective), and `list(set(...))` deduplication is modelled
by `List.dedup` (Python's set iteration order is unspecified; the claims
concern only duplicate-freeness and membership). -/

/-- One output item of the NER pipeline (only the `"word"` field is used). -/
structure NerToken where
  word : String
  deriving DecidableEq, Repr

/-- Python's `s.startswith(p)`, computed on the underlying character lists
(Lean's builtin `String.startsWith` goes through byte positions and is not
kernel-reducible; this equivalent form is). -/
def pyStartsWith (s p : String) : Bool :=
  p.data.isPrefixOf s.data

/-- The token-grouping loop of `extract_entities` (lines 99-114):
`current` is `current_entity` (the word-piece parts accumulated so far),
`entities` the completed entity strings.  A token whose word starts with
`"##"` appends its word minus the marker to the current entity; any other
token closes the current entity (if any) and starts a new one; at the end
the pending entity is flushed. -/
def groupLoop : List String → List String → List NerToken → List String
  | current, entities, [] =>
      if current ≠ [] then entities ++ [String.join current] else entities
  | current, entities, r :: rest =>
      if pyStartsWith r.word "##" then
        groupLoop (current ++ [r.word.drop 2]) entities rest
      else
        if current ≠ [] then
          groupLoop [r.word] (entities ++ [String.join current]) rest
        else
          groupLoop [r.word] entities rest

/-- Grouping of a NER token sequence into whole-word entity strings. -/
def groupEntities (results : List NerToken) : List String :=
  groupLoop [] [] results

/-- `extract_entities` (`extraction.py` lines 78-122).  `nerOutcome` is the
result of building and invoking the NER pipeline on `text`.  Returns the
entity list and the updated cache.  The cached-value check is the Python
walrus `if cached := _entity_cache.get(key):` — a cached empty list is
falsy and does not short-circuit. -/
def extract_entities (text : String) (nerOutcome : PyResult (List NerToken))
    (cache : List (String × List String)) :
    List String × List (String × List String) :=
  let cachedHit : Option (List String) :=
    match cache.lookup text with
    | some c => if c ≠ [] then some c else none
    | none => none
  match cachedHit with
  | some c => (c, cache)
  | none =>
    match nerOutcome with
    | .raised => ([], cache)      -- except: log the error, return []
    | .ok results =>
        let deduped := (groupEntities results).dedup
        (deduped, (text, deduped) :: cache)

/-! ## Memory records and discrete memory extraction
(`extraction.py` lines 284-386)

`MemoryRecord` carries the fields this pipeline reads or writes.  The LLM
is abstracted as an oracle mapping each record to the stream of outcomes
of successive chat-completion calls made for it (the prompt is a function
of the record's text, so a per-record stream is faithful); storage-adapter
calls (`delete_memories`, `update_memories`, `index_long_term_memories`)
are recorded in an explicit effect structure.  Fresh ULIDs are modelled by
an injective-by-assumption generator `idGen : Nat → String` giving the
i-th identifier generated during the flush step. -/

/-- The fields of `MemoryRecord` used by the extraction pipeline. -/
structure MemoryRecord where
  id : String
  text : String
  memory_type : String
  topics : List String
  entities : List String
  discrete_memory_extracted : String
  deriving DecidableEq, Repr

/-- One element of the `"memories"` list in the LLM's JSON response.
`text` is read by direct indexing in the source (a response without it
would raise at flush time); `type`, `topics` and `entities` are read with
`.get` and defaulted, so they are optional here. -/
structure ExtractedMemory where
  type : Option String
  text : String
  topics : Option (List String)
  entities : Option (List String)
  deriving DecidableEq, Repr

/-- Classification of one chat-completion call inside the per-record retry
loop of `extract_discrete_memories` (lines 336-360):
  * `callRaises` — the completion call itself raised;
  * `badJson` — `json.loads` raised `JSONDecodeError`; logged and re-raised;
  * `badShape` — the parse succeeded but the assertion that the result is a
    mapping with a list under `"memories"` failed; logged and re-raised;
  * `ok ms` — a well-formed response carrying the memory list `ms`. -/
inductive DiscreteOutcome where
  | callRaises
  | badJson
  | badShape
  | ok (memories : List ExtractedMemory)
  deriving DecidableEq, Repr

/-- The `AsyncRetrying(stop=stop_after_attempt(fuel))` loop around one
record's completion call (lines 336-360): the first well-formed response
ends the loop with its memory list appended; a raising attempt
(`callRaises`, `badJson` or `badShape` all re-raise out of the `with
attempt` body) is retried while attempts remain, and exhausting the
attempts propagates a failure. -/
def discreteRetry : Nat → List DiscreteOutcome → PyResult (List ExtractedMemory)
  | 0, _ => .raised
  | _ + 1, [] => .raised
  | fuel + 1, o :: rest =>
    match o with
    | .ok ms => .ok ms
    | _ => discreteRetry fuel rest

/-- Accumulated state of the per-record loop of `extract_discrete_memories`
(lines 330-364): ids deleted so far, and — unless an exception escaped a
record's retry loop — the accumulated `new_discrete_memories` and
`updated_memories` lists. -/
structure LoopResult where
  deleted : List String
  result : PyResult (List ExtractedMemory × List MemoryRecord)
  deriving DecidableEq, Repr

/-- The `for memory in memories:` loop (lines 330-364).  A record with
empty text is deleted from storage and skipped without any LLM call;
otherwise the record's responses go through the 3-attempt retry loop:
on success its memories extend `new_discrete_memories` and a copy of the
record with `discrete_memory_extracted = "t"` is appended to
`updated_memories`; a propagating failure aborts the loop (and the
whole coroutine), keeping the deletions already performed. -/
def processRecords (oracle : MemoryRecord → List DiscreteOutcome) :
    List MemoryRecord → LoopResult
  | [] => ⟨[], .ok ([], [])⟩
  | m :: rest =>
    if m.text = "" then
      let r := processRecords oracle rest
      ⟨m.id :: r.deleted, r.result⟩
    else
      match discreteRetry 3 (oracle m) with
      | .raised => ⟨[], .raised⟩
      | .ok ms =>
          let r := processRecords oracle rest
          match r.result with
          | .raised => ⟨r.deleted, .raised⟩
          | .ok (news, upds) =>
              ⟨r.deleted,
               .ok (ms ++ news,
                    { m with discrete_memory_extracted := "t" } :: upds)⟩

/-- The eligibility filter of the paginated scan (lines 308-314):
`memory_type = "message"` and `discrete_memory_extracted = "f"`. -/
def eligibleForExtraction (m : MemoryRecord) : Bool :=
  m.memory_type == "message" && m.discrete_memory_extracted == "f"

/-- `adapter.search_memories` with the scan's filters (lines 308-314),
modelled over a store list: the page of the filtered store at the given
offset, at most `limit` long. -/
def search_memories (store : List MemoryRecord) (limit offset : Nat) :
    List MemoryRecord :=
  ((store.filter eligibleForExtraction).drop offset).take limit

/-- The `while True:` pagination loop (lines 305-325) over the filtered
store: accumulate pages of 25, stopping after the first page shorter than
25.  Returns the accumulated records and the number of adapter search
calls issued. -/
def selectLoop (elig : List MemoryRecord) (offset : Nat)
    (acc : List MemoryRecord) (calls : Nat) : List MemoryRecord × Nat :=
  let page := (elig.drop offset).take 25
  if h : page.length < 25 then (acc ++ page, calls + 1)
  else selectLoop elig (offset + 25) (acc ++ page) (calls + 1)
termination_by elig.length - offset
decreasing_by
  simp only [page, List.length_take, List.length_drop] at h
  omega

/-- The record-selection step of `extract_discrete_memories` when no
explicit record list is given. -/
def selectMemories (store : List MemoryRecord) : List MemoryRecord × Nat :=
  selectLoop (store.filter eligibleForExtraction) 0 [] 0

/-- Construction of one fresh long-term memory record from a parsed memory
dict (lines 370-380): fresh generated id, type defaulted to `"episodic"`,
topics/entities defaulted to empty, extraction flag pre-set to `"t"`. -/
def buildNewRecord (freshId : String) (nm : ExtractedMemory) : MemoryRecord :=
  { id := freshId,
    text := nm.text,
    memory_type := match nm.type with
      | some t => t
      | none => "episodic",
    topics := match nm.topics with
      | some ts => ts
      | none => [],
    entities := match nm.entities with
      | some es => es
      | none => [],
    discrete_memory_extracted := "t" }

/-- The flush-time construction of all new records, consuming fresh ids in
order. -/
def buildNewRecords (idGen : Nat → String) :
    Nat → List ExtractedMemory → List MemoryRecord
  | _, [] => []
  | i, nm :: rest => buildNewRecord (idGen i) nm :: buildNewRecords idGen (i + 1) rest

/-- The observable outcome of one `extract_discrete_memories` invocation:
number of adapter search calls, ids deleted, the argument of the bulk
`update_memories` call (`none` when the call was not made), the argument
of `index_long_term_memories` with its `deduplicate` flag (`none` when the
call was not made), and whether the coroutine raised. -/
structure RunOutcome where
  searchCalls : Nat
  deleted : List String
  updateCall : Option (List MemoryRecord)
  indexCall : Option (List MemoryRecord × Bool)
  raised : Bool
  deriving DecidableEq, Repr

/-- `extract_discrete_memories` (`extraction.py` lines 284-386).
`records?` is the `memories` argument; the Python guard `if not memories:`
triggers the paginated scan when it is `None` or the empty list.  After
the per-record loop, non-empty accumulated lists are flushed: the
flag-updated sources in one bulk `update_memories` call and the freshly
built records in one `index_long_term_memories` call. -/
def extract_discrete_memories (store : List MemoryRecord)
    (records? : Option (List MemoryRecord))
    (oracle : MemoryRecord → List DiscreteOutcome)
    (idGen : Nat → String) (deduplicate : Bool) : RunOutcome :=
  let selected : List MemoryRecord × Nat :=
    match records? with
    | some ms => if ms = [] then selectMemories store else (ms, 0)
    | none => selectMemories store
  let lr := processRecords oracle selected.1
  match lr.result with
  | .raised =>
      { searchCalls := selected.2, deleted := lr.deleted,
        updateCall := none, indexCall := none, raised := true }
  | .ok (news, upds) =>
      { searchCalls := selected.2,
        deleted := lr.deleted,
        updateCall := if upds = [] then none else some upds,
        indexCall :=
          if news = [] then none
          else some (buildNewRecords idGen 0 news, deduplicate),
        raised := false }

/-! ## Per-provider client cache (`llms.py` lines 422-448)

`get_model_client` lazily constructs one client wrapper per provider and
stores it in the module-level `_model_clients` dictionary.  Instance
identity is modelled by tagging each construction with a serial number
drawn from the state, so two structurally equal wrappers constructed
separately are distinguishable.  `AnthropicClientWrapper.__init__`
(`llms.py` lines 215-232) raises unless an API key is configured and
otherwise holds a client for that key. -/

/-- `AnthropicClientWrapper.__init__` (`llms.py` lines 215-232): resolves
the key from the argument or `ANTHROPIC_API_KEY` and raises `ValueError`
when it is falsy (the `anthropic` package is assumed importable).  The
resulting wrapper is represented by its resolved key. -/
def AnthropicClientWrapper.init (api_key env_key : Option String) :
    Except String (Option String) :=
  let anthropic_api_key := pyOr api_key env_key
  if ¬ pyTruthy anthropic_api_key then
    .error "Anthropic API key is required"
  else
    .ok anthropic_api_key

/-- A client wrapper instance held by the cache, tagged with a construction
serial number so that distinct constructions are distinct values. -/
inductive CachedClient where
  | openaiClient (tag : Nat) (wrapper : OpenAIClientWrapper)
  | anthropicClient (tag : Nat) (key : Option String)
  deriving DecidableEq, Repr

/-- The mutable state behind `get_model_client`: the `_model_clients`
dictionary and the next construction serial number. -/
structure ClientCacheState where
  cache : List (ModelProvider × CachedClient)
  nextTag : Nat
  deriving DecidableEq, Repr

/-- `get_model_client` (`llms.py` lines 426-448) for an already-coerced
provider enum, over the environment (`OPENAI_API_KEY`, `OPENAI_API_BASE`,
`ANTHROPIC_API_KEY`).  On a cache miss it constructs the provider's
wrapper — which may raise a configuration error, leaving the cache
unchanged — and stores it.  The returned `Nat` counts the constructions
performed by this call. -/
def get_model_client (st : ClientCacheState) (provider : ModelProvider)
    (envOpenaiKey envOpenaiBase envAnthropicKey : Option String) :
    Except String (CachedClient × ClientCacheState × Nat) :=
  match st.cache.lookup provider with
  | some c => .ok (c, st, 0)
  | none =>
    match provider with
    | .openai =>
      match OpenAIClientWrapper.init envOpenaiKey none envOpenaiKey envOpenaiBase with
      | .error e => .error e
      | .ok w =>
          let c := CachedClient.openaiClient st.nextTag w
          .ok (c, ⟨(ModelProvider.openai, c) :: st.cache, st.nextTag + 1⟩, 1)
    | .anthropic =>
      match AnthropicClientWrapper.init envAnthropicKey envAnthropicKey with
      | .error e => .error e
      | .ok k =>
          let c := CachedClient.anthropicClient st.nextTag k
          .ok (c, ⟨(ModelProvider.anthropic, c) :: st.cache, st.nextTag + 1⟩, 1)

/-! ## Theorems -/

/-- The `"gpt-4o-mini"` entry of the table, the designated default. -/
def defaultModelConfig : ModelConfig :=
  { provider := .openai, name := "gpt-4o-mini", max_tokens := 128000,
    embedding_dimensions := 1536 }

/-- C8: the registry's resolve operation is a total function: every name
absent from the static table resolves to the designated default model's
config (the table's own `"gpt-4o-mini"` entry), every present name
resolves to the table's config exactly, `"gpt-4o"` resolves to the OpenAI
provider with max_tokens 128000, and `"claude-3-sonnet-20240229"` resolves
to the Anthropic provider with max_tokens 200000. -/
theorem C8_resolve_total :
    (∀ name : String, MODEL_CONFIGS.lookup name = none →
      get_model_config name = defaultModelConfig) ∧
    (∀ name cfg, MODEL_CONFIGS.lookup name = some cfg →
      get_model_config name = cfg) ∧
    MODEL_CONFIGS.lookup "gpt-4o-mini" = some defaultModelConfig ∧
    get_model_config "gpt-4o" =
      { provider := .openai, name := "gpt-4o", max_tokens := 128000,
        embedding_dimensions := 1536 } ∧
    get_model_config "claude-3-sonnet-20240229" =
      { provider := .anthropic, name := "claude-3-sonnet-20240229",
        max_tokens := 200000, embedding_dimensions := 1536 } := by
  refine ⟨fun name h => ?_, fun name cfg h => ?_, ?_, ?_, ?_⟩
  · simp [get_model_config, h, defaultModelConfig]
  · simp [get_model_config, h]
  · rfl
  · rfl
  · rfl

/-- Witness for C8 at concrete inputs: an absent name resolves to the
default config. -/
theorem C8_resolve_total_witness :
    get_model_config "no-such-model" = defaultModelConfig :=
  C8_resolve_total.1 "no-such-model" rfl

/-- C2: constructing the OpenAI wrapper with a non-empty API key and no
base URL (neither as an argument nor in the environment) succeeds but
leaves both underlying clients `None`, so the guards of
`create_chat_completion` and `create_embedding` raise
`ValueError("OpenAI API key is not configured")` although a valid
credential was supplied. -/
theorem C2_key_without_base_loses_clients (api_key env_key : Option String)
    (hk : pyTruthy (pyOr api_key env_key) = true) :
    ∃ w, OpenAIClientWrapper.init api_key none env_key none = .ok w ∧
      w.completion_client = none ∧
      w.embedding_client = none ∧
      w.create_chat_completion_guard =
        .error "OpenAI API key is not configured" ∧
      w.create_embedding_guard =
        .error "OpenAI API key is not configured" := by
  refine ⟨{ api_key := pyOr api_key env_key, base_url := pyOr none none,
            completion_client := none, embedding_client := none },
          ?_, rfl, rfl, rfl, rfl⟩
  simp only [OpenAIClientWrapper.init, hk]
  simp [pyOr, pyTruthy]

/-- Witness for C2 at the concrete key `"sk-test"`. -/
theorem C2_key_without_base_loses_clients_witness :
    ∃ w, OpenAIClientWrapper.init (some "sk-test") none none none = .ok w ∧
      w.completion_client = none ∧
      w.embedding_client = none ∧
      w.create_chat_completion_guard =
        .error "OpenAI API key is not configured" ∧
      w.create_embedding_guard =
        .error "OpenAI API key is not configured" :=
  C2_key_without_base_loses_clients (some "sk-test") none (by decide)

/-- C9: entity extraction groups `"##"`-continuation tokens onto the
preceding entity (the token sequence `["Trek", "##520"]` yields the single
entity `"Trek520"`), returns a deduplicated list, and never raises: a
failing NER pipeline yields the empty entity list. -/
theorem C9_entity_grouping_dedup_nonfatal :
    groupEntities [⟨"Trek"⟩, ⟨"##520"⟩] = ["Trek520"] ∧
    (∀ text : String,
      extract_entities text (.ok [⟨"Trek"⟩, ⟨"##520"⟩]) [] =
        (["Trek520"], [(text, ["Trek520"])])) ∧
    (∀ (text : String) (results : List NerToken),
      (extract_entities text (.ok results) []).1 =
        (groupEntities results).dedup) ∧
    (∀ (text : String) (results : List NerToken),
      ((extract_entities text (.ok results) []).1).Nodup) ∧
    (∀ text : String, extract_entities text .raised [] = ([], [])) := by
  refine ⟨by decide, fun text => ?_, fun text results => ?_,
          fun text results => ?_, fun text => rfl⟩
  · simp [extract_entities]
    decide
  · rfl
  · simpa [extract_entities] using List.nodup_dedup (groupEntities results)

/-- C1 counterexample: the claim predicts that a JSON-decode failure (or
missing `"topics"` field) in the model's response triggers a retry, and
that three such failures propagate the final attempt's exception rather
than returning an empty list.  At the concrete input where all three
responses fail to parse, the code returns the empty list from the very
first attempt — the `try/except` inside the attempt body swallows the
parse failure, so tenacity sees a successful attempt and never retries. -/
theorem C1_parse_failure_counterexample :
    extract_topics_llm 5 none
      [.callReturns none, .callReturns none, .callReturns none] =
      (.ok [], 1) ∧
    extract_topics_llm 5 none
      [.callReturns none, .callReturns none, .callReturns none] ≠
      (.raised, 3) := by
  have h1 : extract_topics_llm 5 none
      [.callReturns none, .callReturns none, .callReturns none] =
      (.ok [], 1) := rfl
  refine ⟨h1, ?_⟩
  rw [h1]
  intro h
  exact absurd (congrArg Prod.snd h) (by decide)

/-- C1 amended: a JSON-decode failure or missing `"topics"` field is
caught inside the attempt body, so it causes no retry — that attempt
completes successfully, returning the empty list.  Only an exception from
the chat-completion call itself escapes the attempt; such failures are
retried with a fixed limit of 3 attempts, and after the third failure an
exception propagates to the caller. -/
theorem C1_retry_semantics (topK : Nat) (numTopics : Option Nat)
    (rest tail : List TopicOutcome) :
    extract_topics_llm topK numTopics (.callReturns none :: rest) =
      (.ok [], 1) ∧
    extract_topics_llm topK numTopics
      (.callRaises :: .callRaises :: .callRaises :: tail) =
      (.raised, 3) := by
  constructor
  · simp [extract_topics_llm, topicsRetry, topicAttemptValue]
  · simp [extract_topics_llm, topicsRetry]

/-- C7: under the statistical (BERTopic) strategy, two calls with the same
`(text, count)` pair invoke the underlying model exactly once — the first
call (on a cache miss) performs one invocation and the second is a cache
hit performing none and returning the same list with the cache unchanged —
while two calls that differ only in the requested count occupy distinct
cache entries and each perform an invocation. -/
theorem C7_bertopic_cache (transform : String → List Int)
    (getTopic : Int → List String) (topK : Nat) (text : String)
    (n1 n2 : Nat) (cache : List ((String × Nat) × List String))
    (h1 : cache.lookup (text, n1) = none)
    (h2 : cache.lookup (text, n2) = none)
    (hne : n1 ≠ n2) :
    ((extract_topics_bertopic transform getTopic topK text (some n1)
        cache).2.2 = 1 ∧
     (extract_topics_bertopic transform getTopic topK text (some n1)
        (extract_topics_bertopic transform getTopic topK text (some n1)
          cache).2.1) =
       ((extract_topics_bertopic transform getTopic topK text (some n1)
           cache).1,
        (extract_topics_bertopic transform getTopic topK text (some n1)
           cache).2.1,
        0)) ∧
    (extract_topics_bertopic transform getTopic topK text (some n2)
        (extract_topics_bertopic transform getTopic topK text (some n1)
          cache).2.1).2.2 = 1 := by
  have hb : ((text, n2) == (text, n1)) = false :=
    beq_eq_false_iff_ne.mpr fun hp => hne (congrArg Prod.snd hp).symm
  refine ⟨⟨?_, ?_⟩, ?_⟩
  · simp [extract_topics_bertopic, h1]
  · simp [extract_topics_bertopic, h1, List.lookup]
  · simp [extract_topics_bertopic, h1, h2, List.lookup, hb]

/-- Witness for C7 at concrete inputs: empty cache, a one-topic model,
counts 1 and 2. -/
theorem C7_bertopic_cache_witness :
    ((extract_topics_bertopic (fun _ => [0]) (fun _ => ["alpha"]) 5 "t"
        (some 1) []).2.2 = 1 ∧
     (extract_topics_bertopic (fun _ => [0]) (fun _ => ["alpha"]) 5 "t"
        (some 1)
        (extract_topics_bertopic (fun _ => [0]) (fun _ => ["alpha"]) 5 "t"
          (some 1) []).2.1) =
       ((extract_topics_bertopic (fun _ => [0]) (fun _ => ["alpha"]) 5 "t"
           (some 1) []).1,
        (extract_topics_bertopic (fun _ => [0]) (fun _ => ["alpha"]) 5 "t"
           (some 1) []).2.1,
        0)) ∧
    (extract_topics_bertopic (fun _ => [0]) (fun _ => ["alpha"]) 5 "t"
        (some 2)
        (extract_topics_bertopic (fun _ => [0]) (fun _ => ["alpha"]) 5 "t"
          (some 1) []).2.1).2.2 = 1 :=
  C7_bertopic_cache (fun _ => [0]) (fun _ => ["alpha"]) 5 "t" 1 2 []
    rfl rfl (by decide)

/-- C6: when a call to the client cache for a provider returns a client,
a second sequential call for the same provider returns the identical
instance with the cache unchanged and performs no construction, and the
first call performed at most one construction. -/
theorem C6_client_cache_singleton (st : ClientCacheState) (p : ModelProvider)
    (eK eB aK : Option String) (c1 : CachedClient) (st1 : ClientCacheState)
    (n1 : Nat)
    (h : get_model_client st p eK eB aK = .ok (c1, st1, n1)) :
    get_model_client st1 p eK eB aK = .ok (c1, st1, 0) ∧ n1 ≤ 1 := by
  unfold get_model_client at h ⊢
  cases hc : st.cache.lookup p with
  | some c =>
      rw [hc] at h
      cases h
      rw [hc]
      exact ⟨rfl, by omega⟩
  | none =>
      rw [hc] at h
      cases p with
      | openai =>
          cases hi : OpenAIClientWrapper.init eK none eK eB with
          | error e => rw [hi] at h; cases h
          | ok w =>
              rw [hi] at h
              cases h
              simp [List.lookup]
      | anthropic =>
          cases hi : AnthropicClientWrapper.init aK aK with
          | error e => rw [hi] at h; cases h
          | ok k =>
              rw [hi] at h
              cases h
              simp [List.lookup]

/-- Witness for C6: starting from the empty cache with an OpenAI key in the
environment, the second call returns the instance constructed by the
first, without constructing again. -/
theorem C6_client_cache_singleton_witness :
    get_model_client
      ⟨[(ModelProvider.openai,
         CachedClient.openaiClient 0
           { api_key := some "k", base_url := none,
             completion_client := none, embedding_client := none })], 1⟩
      .openai (some "k") none none =
      .ok (CachedClient.openaiClient 0
             { api_key := some "k", base_url := none,
               completion_client := none, embedding_client := none },
           ⟨[(ModelProvider.openai,
              CachedClient.openaiClient 0
                { api_key := some "k", base_url := none,
                  completion_client := none, embedding_client := none })], 1⟩,
           0) ∧ (1 : Nat) ≤ 1 :=
  C6_client_cache_singleton ⟨[], 0⟩ .openai (some "k") none none _ _ 1 rfl

/-- The source record of the C4 scenario: a message-type record awaiting
extraction. -/
def c4record : MemoryRecord :=
  { id := "src-1", text := "User rode a Trek 520", memory_type := "message",
    topics := [], entities := [], discrete_memory_extracted := "f" }

/-- The response oracle of the C4 scenario: malformed JSON on the first
two attempts (`"not json"`, `"{bad}"`), then a well-formed response whose
single memory has type `"semantic"`, text `"X"`, empty topics and
entities. -/
def c4oracle : MemoryRecord → List DiscreteOutcome := fun _ =>
  [.badJson, .badJson, .ok [⟨some "semantic", "X", some [], some []⟩]]

/-- A concrete stream of generated identifiers for the flush step. -/
def c4idGen : Nat → String := fun i => "ulid-" ++ toString i

/-- C4: with malformed responses on the first two attempts and a valid one
on the third, `extract_discrete_memories` still succeeds: it makes exactly
one indexing call carrying one fresh record with memory_type `"semantic"`,
text `"X"`, a freshly generated id and the extraction flag pre-set to
`"t"`, with deduplication on, and one bulk update call flushing the source
record with its flag flipped to `"t"`. -/
theorem C4_third_attempt_success :
    extract_discrete_memories [] (some [c4record]) c4oracle c4idGen true =
      { searchCalls := 0, deleted := [],
        updateCall :=
          some [{ c4record with discrete_memory_extracted := "t" }],
        indexCall :=
          some ([{ id := "ulid-0", text := "X", memory_type := "semantic",
                   topics := [], entities := [],
                   discrete_memory_extracted := "t" }], true),
        raised := false } := by
  rfl

/-- C5: a record with empty text is deleted from storage (its id passed to
the adapter's delete operation) and skipped — the loop's outcome on the
remaining records is unchanged and nothing is synthesized from it — and a
batch consisting of that record alone completes with one deletion, no
update call and no indexing call. -/
theorem C5_empty_text_deleted (m : MemoryRecord) (hm : m.text = "")
    (rest : List MemoryRecord) (oracle : MemoryRecord → List DiscreteOutcome)
    (store : List MemoryRecord) (idGen : Nat → String) (dedup : Bool) :
    processRecords oracle (m :: rest) =
      ⟨m.id :: (processRecords oracle rest).deleted,
       (processRecords oracle rest).result⟩ ∧
    extract_discrete_memories store (some [m]) oracle idGen dedup =
      { searchCalls := 0, deleted := [m.id], updateCall := none,
        indexCall := none, raised := false } := by
  constructor
  · simp [processRecords, hm]
  · simp [extract_discrete_memories, processRecords, hm]

/-- Witness for C5 at a concrete empty-text record. -/
theorem C5_empty_text_deleted_witness :
    processRecords (fun _ => []) [⟨"empty-1", "", "message", [], [], "f"⟩] =
      ⟨["empty-1"],
       (processRecords (fun _ => [])
         ([] : List MemoryRecord)).result⟩ ∧
    extract_discrete_memories []
        (some [⟨"empty-1", "", "message", [], [], "f"⟩])
        (fun _ => []) c4idGen true =
      { searchCalls := 0, deleted := ["empty-1"], updateCall := none,
        indexCall := none, raised := false } :=
  C5_empty_text_deleted ⟨"empty-1", "", "message", [], [], "f"⟩ rfl []
    (fun _ => []) [] c4idGen true

/-- A response whose parse fails: malformed JSON or failed shape
validation.  Both log and re-raise inside the attempt body. -/
def malformedResponse : DiscreteOutcome → Bool
  | .badJson => true
  | .badShape => true
  | _ => false

/-- Three malformed responses exhaust the 3-attempt retry loop and the
failure propagates. -/
theorem discreteRetry_three_malformed (o1 o2 o3 : DiscreteOutcome)
    (tl : List DiscreteOutcome)
    (h1 : malformedResponse o1 = true) (h2 : malformedResponse o2 = true)
    (h3 : malformedResponse o3 = true) :
    discreteRetry 3 (o1 :: o2 :: o3 :: tl) = .raised := by
  cases o1 <;> cases o2 <;> cases o3 <;>
    simp_all [discreteRetry, malformedResponse]

/-- One-step unfolding of the per-record loop at an empty-text record. -/
theorem processRecords_cons_empty
    (oracle : MemoryRecord → List DiscreteOutcome) (m : MemoryRecord)
    (rest : List MemoryRecord) (hm : m.text = "") :
    processRecords oracle (m :: rest) =
      ⟨m.id :: (processRecords oracle rest).deleted,
       (processRecords oracle rest).result⟩ := by
  simp [processRecords, hm]

/-- One-step unfolding of the per-record loop when the record's retry loop
exhausts: the loop aborts at once. -/
theorem processRecords_cons_raised
    (oracle : MemoryRecord → List DiscreteOutcome) (m : MemoryRecord)
    (rest : List MemoryRecord) (hm : ¬ m.text = "")
    (hr : discreteRetry 3 (oracle m) = .raised) :
    processRecords oracle (m :: rest) = ⟨[], .raised⟩ := by
  simp [processRecords, hm, hr]

/-- One-step unfolding of the per-record loop when the record's retry loop
returns a memory list. -/
theorem processRecords_cons_ok
    (oracle : MemoryRecord → List DiscreteOutcome) (m : MemoryRecord)
    (rest : List MemoryRecord) (ms : List ExtractedMemory)
    (hm : ¬ m.text = "") (hr : discreteRetry 3 (oracle m) = .ok ms) :
    processRecords oracle (m :: rest) =
      match (processRecords oracle rest).result with
      | .raised => ⟨(processRecords oracle rest).deleted, .raised⟩
      | .ok (news, upds) =>
          ⟨(processRecords oracle rest).deleted,
           .ok (ms ++ news,
                { m with discrete_memory_extracted := "t" } :: upds)⟩ := by
  simp [processRecords, hm, hr]

/-- If a prefix of the batch processes successfully and the remainder
aborts with a failure and no deletions, the whole batch aborts with the
prefix's deletions and the failure. -/
theorem processRecords_append_raised
    (oracle : MemoryRecord → List DiscreteOutcome)
    (xs ys : List MemoryRecord) (d : List String)
    (ns : List ExtractedMemory) (us : List MemoryRecord)
    (hx : processRecords oracle xs = ⟨d, .ok (ns, us)⟩)
    (hy : processRecords oracle ys = ⟨[], .raised⟩) :
    processRecords oracle (xs ++ ys) = ⟨d, .raised⟩ := by
  induction xs generalizing d ns us with
  | nil =>
      simp only [processRecords] at hx
      cases hx
      simpa using hy
  | cons m xs' ih =>
      by_cases hm : m.text = ""
      · rw [processRecords_cons_empty oracle m xs' hm] at hx
        injection hx with hdel hres
        subst hdel
        rw [List.cons_append, processRecords_cons_empty oracle m (xs' ++ ys) hm]
        have hx' : processRecords oracle xs' =
            ⟨(processRecords oracle xs').deleted, .ok (ns, us)⟩ := by
          rw [← hres]
        rw [ih (processRecords oracle xs').deleted ns us hx']
      · cases hr : discreteRetry 3 (oracle m) with
        | raised =>
            rw [processRecords_cons_raised oracle m xs' hm hr] at hx
            simp at hx
        | ok ms =>
            rw [processRecords_cons_ok oracle m xs' ms hm hr] at hx
            cases hres : (processRecords oracle xs').result with
            | raised => rw [hres] at hx; simp at hx
            | ok p =>
                obtain ⟨news, upds⟩ := p
                rw [hres] at hx
                injection hx with hdel hres2
                subst hdel
                rw [List.cons_append,
                    processRecords_cons_ok oracle m (xs' ++ ys) ms hm hr]
                have hx' : processRecords oracle xs' =
                    ⟨(processRecords oracle xs').deleted,
                     .ok (news, upds)⟩ := by
                  rw [← hres]
                rw [ih (processRecords oracle xs').deleted news upds hx']

/-- C3: if a record with nonempty text receives malformed responses on all
3 retry attempts, the failure propagates out of `extract_discrete_memories`
and no storage writes are committed for the batch: neither the bulk
flag-update call nor the indexing call is made (so the failing record's
extraction flag stays `"f"`), even when earlier records of the batch had
already been processed successfully. -/
theorem C3_malformed_all_attempts_aborts_batch
    (pre rest : List MemoryRecord) (bad : MemoryRecord)
    (oracle : MemoryRecord → List DiscreteOutcome) (idGen : Nat → String)
    (dedup : Bool) (store : List MemoryRecord) (dpre : List String)
    (ns : List ExtractedMemory) (us : List MemoryRecord)
    (hpre : processRecords oracle pre = ⟨dpre, .ok (ns, us)⟩)
    (hbad : bad.text ≠ "")
    (o1 o2 o3 : DiscreteOutcome) (tl : List DiscreteOutcome)
    (horacle : oracle bad = o1 :: o2 :: o3 :: tl)
    (h1 : malformedResponse o1 = true) (h2 : malformedResponse o2 = true)
    (h3 : malformedResponse o3 = true) :
    extract_discrete_memories store (some (pre ++ bad :: rest)) oracle
        idGen dedup =
      { searchCalls := 0, deleted := dpre, updateCall := none,
        indexCall := none, raised := true } := by
  have hr : discreteRetry 3 (oracle bad) = .raised := by
    rw [horacle]
    exact discreteRetry_three_malformed o1 o2 o3 tl h1 h2 h3
  have hfail : processRecords oracle (bad :: rest) = ⟨[], .raised⟩ :=
    processRecords_cons_raised oracle bad rest hbad hr
  have happ : processRecords oracle (pre ++ bad :: rest) = ⟨dpre, .raised⟩ :=
    processRecords_append_raised oracle pre (bad :: rest) dpre ns us hpre hfail
  have hne : ¬ (pre ++ bad :: rest = []) := by simp
  simp [extract_discrete_memories, hne, happ]

/-- Witness for C3: one successfully processed record followed by a record
whose three responses are all malformed JSON; the run raises with no
update or indexing call. -/
theorem C3_malformed_all_attempts_aborts_batch_witness :
    extract_discrete_memories []
        (some ([⟨"good-1", "ok", "message", [], [], "f"⟩] ++
          ⟨"bad-1", "oops", "message", [], [], "f"⟩ :: []))
        (fun m => if m.text = "ok" then [.ok []]
                  else [.badJson, .badJson, .badJson])
        c4idGen true =
      { searchCalls := 0, deleted := [], updateCall := none,
        indexCall := none, raised := true } :=
  C3_malformed_all_attempts_aborts_batch
    [⟨"good-1", "ok", "message", [], [], "f"⟩] []
    ⟨"bad-1", "oops", "message", [], [], "f"⟩
    (fun m => if m.text = "ok" then [.ok []]
              else [.badJson, .badJson, .badJson])
    c4idGen true [] []
    [] [⟨"good-1", "ok", "message", [], [], "t"⟩]
    rfl (by decide) .badJson .badJson .badJson [] rfl rfl rfl rfl

/-- C10: over a store whose eligible (message-type, unextracted) records
number 30, the paginated scan issues exactly two adapter search calls —
the first page holding 25 records and the second 5 — stops after the
second, and accumulates exactly the eligible records. -/
theorem C10_pagination_two_calls (store : List MemoryRecord)
    (h : (store.filter eligibleForExtraction).length = 30) :
    (search_memories store 25 0).length = 25 ∧
    (search_memories store 25 25).length = 5 ∧
    selectMemories store = (store.filter eligibleForExtraction, 2) := by
  refine ⟨?_, ?_, ?_⟩
  · simp [search_memories, h]
  · simp [search_memories, h]
  · show selectLoop (store.filter eligibleForExtraction) 0 [] 0 =
      (store.filter eligibleForExtraction, 2)
    rw [selectLoop]
    rw [dif_neg (by simp [h])]
    rw [selectLoop]
    rw [dif_pos (by simp [h])]
    simp only [List.nil_append, List.drop_zero, ← List.take_add]
    rw [List.take_of_length_le (by omega :
      (store.filter eligibleForExtraction).length ≤ 25 + 25)]

/-- A concrete store of 30 eligible records for the C10 scenario. -/
def c10store : List MemoryRecord :=
  (List.range 30).map fun i =>
    { id := toString i, text := "m", memory_type := "message",
      topics := [], entities := [], discrete_memory_extracted := "f" }

/-- Witness for C10 at the concrete 30-record store. -/
theorem C10_pagination_two_calls_witness :
    selectMemories c10store = (c10store.filter eligibleForExtraction, 2) :=
  (C10_pagination_two_calls c10store (by rfl)).2.2

end AgentMemory
